import Mathlib

/-!
Shallow embedding of the license service core (Django app `licenses`):
the data model and the operations in `src/licenses/models.py` and
`src/licenses/views.py`.  Timestamps are modelled as integers; Django
querysets over the database become lists carried in an explicit `Store`
state.  Each definition is translated from the corresponding Python
function; the theorems below settle the individual specification claims.
-/

namespace LicenseService

/-- The six status values of `License.STATUS_CHOICES` in models.py. -/
inductive Status where
  | valid
  | suspended
  | cancelled
  | expired
  | pending
  | renewed
deriving DecidableEq, Repr

/-- The string value stored for each status (the first component of each
`STATUS_CHOICES` pair), as interpolated into Python error messages. -/
def Status.str : Status → String
  | .valid => "valid"
  | .suspended => "suspended"
  | .cancelled => "cancelled"
  | .expired => "expired"
  | .pending => "pending"
  | .renewed => "renewed"

/-- Parse a status string against `dict(License.STATUS_CHOICES)`
membership, as `change_status` in views.py checks it. -/
def statusOfString : String → Option Status
  | "valid" => some .valid
  | "suspended" => some .suspended
  | "cancelled" => some .cancelled
  | "expired" => some .expired
  | "pending" => some .pending
  | "renewed" => some .renewed
  | _ => none

/-- Model of `LicenseKey` rows (models.py): only the fields the embedded
operations read. -/
structure LicenseKeyRec where
  id : Nat
  key : String
  customer_email : String
  is_active : Bool
deriving DecidableEq, Repr

/-- Model of `License` rows (models.py).  `product_slug` denormalises the
product foreign key's slug, which is all the embedded operations read
of the product. -/
structure License where
  id : Nat
  license_key : Nat
  product_slug : String
  status : Status
  seats : Nat
  expiration_date : Int
  original_expiration_date : Option Int
  renewal_count : Nat
  suspension_reason : String
  cancellation_reason : String
  cancelled_at : Option Int
  suspended_at : Option Int
deriving DecidableEq, Repr

/-- Model of `Activation` rows (models.py). -/
structure Activation where
  id : Nat
  license : Nat
  instance_identifier : String
  instance_type : String
  is_active : Bool
  activated_at : Int
  deactivated_at : Option Int
  deactivation_reason : String
deriving DecidableEq, Repr

/-- Embeds `License.is_expired` (models.py line 245-248):
`timezone.now() > self.expiration_date`. -/
def License.is_expired (now : Int) (l : License) : Bool :=
  now > l.expiration_date

/-- The `activations.filter(is_active=True).count()` query of
`License.available_seats`, over the activation table. -/
def usedSeats (l : License) (activations : List Activation) : Nat :=
  (activations.filter (fun a => a.license == l.id && a.is_active)).length

/-- Embeds `License.available_seats` (models.py line 250-254):
`max(0, self.seats - used_seats)`, recomputed from the current
activation table on every call (it is a Python `@property`, never a
stored field). -/
def License.available_seats (l : License) (activations : List Activation) : Int :=
  max 0 ((l.seats : Int) - (usedSeats l activations : Int))

/-- Embeds `License.renew` (models.py line 256-277).  Raised `ValueError`s are
modelled as `.error` with the Python message; on success the updated
row is returned. -/
def License.renew (l : License) (new_expiration_date : Int) : Except String License :=
  if l.status ≠ .valid ∧ l.status ≠ .expired then
    .error ("Cannot renew license with status: " ++ l.status.str)
  else
    let l' := if l.original_expiration_date = none then
        { l with original_expiration_date := some l.expiration_date }
      else l
    .ok { l' with
      expiration_date := new_expiration_date
      renewal_count := l'.renewal_count + 1
      status := .renewed }

/-- Embeds `License.suspend` (models.py line 279-293). -/
def License.suspend (now : Int) (l : License) (reason : String) :
    Except String License :=
  if l.status ≠ .valid ∧ l.status ≠ .renewed then
    .error ("Cannot suspend license with status: " ++ l.status.str)
  else
    .ok { l with
      status := .suspended
      suspension_reason := reason
      suspended_at := some now }

/-- Embeds `License.resume` (models.py line 295-308). -/
def License.resume (l : License) : Except String License :=
  if l.status ≠ .suspended then
    .error ("Cannot resume license with status: " ++ l.status.str)
  else
    .ok { l with
      status := .valid
      suspension_reason := ""
      suspended_at := none }

/-- Embeds `License.cancel` (models.py line 310-324): rejected when the stored
status is `cancelled` or `expired`, otherwise records reason and
timestamp and moves to `cancelled`. -/
def License.cancel (now : Int) (l : License) (reason : String) :
    Except String License :=
  if l.status = .cancelled ∨ l.status = .expired then
    .error ("Cannot cancel license with status: " ++ l.status.str)
  else
    .ok { l with
      status := .cancelled
      cancellation_reason := reason
      cancelled_at := some now }

/-- Embeds `Activation.deactivate` (models.py line 377-390): unconditional
update of the row. -/
def Activation.deactivate (now : Int) (a : Activation) (reason : Option String) :
    Activation :=
  { a with
    is_active := false
    deactivated_at := some now
    deactivation_reason := reason.getD "" }

/-- Embeds `LicenseViewSet.change_status` (views.py line 284-303): validates
only membership of the status string in `STATUS_CHOICES`, then assigns
the field directly and saves, with no state-machine check. -/
def change_status (l : License) (new_status : String) : Except String License :=
  match statusOfString new_status with
  | none => .error "Invalid status value."
  | some st => .ok { l with status := st }

/-- The transactional store: the tables the embedded endpoints touch,
plus the id the database would hand to the next inserted activation. -/
structure Store where
  licenseKeys : List LicenseKeyRec
  licenses : List License
  activations : List Activation
  nextActivationId : Nat
deriving DecidableEq, Repr

/-- Embeds `LicenseKey.objects.get(key=..., is_active=True)` (views.py
line 419 and 496); `DoesNotExist` becomes `none`. -/
def Store.findKey (s : Store) (key : String) : Option LicenseKeyRec :=
  s.licenseKeys.find? (fun k => k.key == key && k.is_active)

/-- The queryset `license_key_obj.licenses.get(product__slug=...,
status='valid', expiration_date__gt=timezone.now())` used by `activate`
(views.py line 503-508): the matching rows.  -/
def activateLicenseMatches (s : Store) (now : Int) (keyId : Nat)
    (product_slug : String) : List License :=
  s.licenses.filter (fun l =>
    l.license_key == keyId && l.product_slug == product_slug &&
    l.status == Status.valid && decide (l.expiration_date > now))

/-- Django `.get`: the unique match, `none` on `DoesNotExist`
(several matches would raise `MultipleObjectsReturned`, which `activate`
does not catch; that branch is modelled separately below). -/
def locateLicense (s : Store) (now : Int) (keyId : Nat)
    (product_slug : String) : Option License :=
  match activateLicenseMatches s now keyId product_slug with
  | [l] => some l
  | _ => none

/-- Embeds `Activation.objects.filter(license=..., instance_identifier=...,
is_active=True).first()` (views.py line 516-520). -/
def findActiveActivation (s : Store) (licId : Nat) (inst : String) :
    Option Activation :=
  s.activations.find? (fun a =>
    a.license == licId && a.instance_identifier == inst && a.is_active)

/-- Embeds `Activation.objects.create(...)` under the table's
`unique_together = ['license', 'instance_identifier']` constraint
(models.py line 372): the database rejects the insert whenever any
row — active or not — already holds the pair, raising `IntegrityError`. -/
def Store.createActivation (s : Store) (licId : Nat) (inst ty : String)
    (now : Int) : Except String (Activation × Store) :=
  if s.activations.any (fun a =>
      a.license == licId && a.instance_identifier == inst) then
    .error "IntegrityError: UNIQUE constraint failed: activations.license_id, activations.instance_identifier"
  else
    let a : Activation :=
      { id := s.nextActivationId
        license := licId
        instance_identifier := inst
        instance_type := ty
        is_active := true
        activated_at := now
        deactivated_at := none
        deactivation_reason := "" }
    .ok (a, { s with
      activations := s.activations ++ [a]
      nextActivationId := s.nextActivationId + 1 })

/-- Outcomes of `LicenseServiceViewSet.activate` (views.py line
484-554), tagged by the response returned. -/
inductive ActivateResult where
  /-- Response 404 `'Invalid or inactive license key'`. -/
  | keyNotFound
  /-- Response 404 `'No valid license found for this product'`
  (the `LicenseNotEntitled` outcome of the spec's taxonomy). -/
  | licenseNotFound
  /-- uncaught `MultipleObjectsReturned` from the `.get`. -/
  | multipleLicenses
  /-- Response 400 `'No available seats for this license'`
  (the `SeatExhausted` outcome of the spec's taxonomy). -/
  | seatExhausted
  /-- Response 200 `'License already activated for this instance'` carrying the
  existing activation's id. -/
  | alreadyActive (activation_id : Nat)
  /-- uncaught `IntegrityError` from the insert. -/
  | integrityError
  /-- Response 200 `'License activated successfully'` carrying the new
  activation's id and the reported `available_seats` value. -/
  | activated (activation_id : Nat) (available_seats : Int)
deriving DecidableEq, Repr

/-- Embeds `LicenseServiceViewSet.activate` (views.py line 484-554), returning
the response outcome and the post-state.  The seat check at line 530
reads `available_seats` fresh; the `transaction.atomic()` block at line
537 wraps only the insert. -/
def activate (s : Store) (now : Int) (license_key product_slug inst ty : String) :
    ActivateResult × Store :=
  match Store.findKey s license_key with
  | none => (.keyNotFound, s)
  | some k =>
    match activateLicenseMatches s now k.id product_slug with
    | [] => (.licenseNotFound, s)
    | [l] =>
      match findActiveActivation s l.id inst with
      | some existing => (.alreadyActive existing.id, s)
      | none =>
        if l.available_seats s.activations ≤ 0 then
          (.seatExhausted, s)
        else
          match s.createActivation l.id inst ty now with
          | .error _ => (.integrityError, s)
          | .ok (a, s') =>
            (.activated a.id (l.available_seats s'.activations - 1), s')
    | _ :: _ :: _ => (.multipleLicenses, s)

/-- The queryset of `check_status` (views.py line 427-433):
`licenses.filter(status='valid', expiration_date__gt=now)`, optionally
narrowed by `product__slug`. -/
def checkStatusLicenses (s : Store) (now : Int) (keyId : Nat)
    (product_slug : Option String) : List License :=
  s.licenses.filter (fun l =>
    l.license_key == keyId && l.status == Status.valid &&
    decide (l.expiration_date > now) &&
    match product_slug with
    | none => true
    | some p => l.product_slug == p)

/-- Update one activation row in place (Django `save` after mutation). -/
def Store.saveActivation (s : Store) (a : Activation) : Store :=
  { s with activations := s.activations.map (fun b => if b.id == a.id then a else b) }

/-- Embeds `ActivationViewSet.deactivate` (views.py line 326-356): 400 when the
row is already inactive, otherwise `Activation.deactivate` is applied
and saved. -/
def deactivateEndpoint (s : Store) (now : Int) (activation_id : Nat)
    (reason : Option String) : Except String Store :=
  match s.activations.find? (fun a => a.id == activation_id) with
  | none => .error "Not found."
  | some a =>
    if ¬ a.is_active then
      .error "Activation is already deactivated."
    else
      .ok (s.saveActivation (a.deactivate now reason))

/-- The ownership chain `license__license_key__customer_email` used by
`bulk_deactivate`'s per-id lookup. -/
def Store.activationOwnerEmail (s : Store) (a : Activation) : Option String :=
  (s.licenses.find? (fun l => l.id == a.license)).bind fun l =>
    (s.licenseKeys.find? (fun k => k.id == l.license_key)).map
      (fun k => k.customer_email)

/-- The loop body table lookup of `bulk_deactivate` (views.py line
375-378): `Activation.objects.get(id=..., license__license_key__customer_email=...)`. -/
def Store.findOwnedActivation (s : Store) (activation_id : Nat)
    (email : String) : Option Activation :=
  s.activations.find? (fun a =>
    a.id == activation_id && s.activationOwnerEmail a == some email)

/-- The per-id loop of `bulk_deactivate` (views.py line 373-393),
threading the success count, the collected error strings and the store
through the remaining ids. -/
def bulkLoop (now : Int) (email reason : String) (ids : List Nat)
    (s : Store) : Nat × List String × Store :=
  match ids with
  | [] => (0, [], s)
  | id :: rest =>
    let (c, errs, s') :=
      match s.findOwnedActivation id email with
      | none =>
        (0, ["Activation " ++ toString id ++ " not found or access denied"], s)
      | some a =>
        if a.is_active then
          (1, [], s.saveActivation (a.deactivate now (some reason)))
        else
          (0, ["Activation " ++ toString id ++ " is already deactivated"], s)
    let (c', errs', s'') := bulkLoop now email reason rest s'
    (c + c', errs ++ errs', s'')

/-- Embeds `ActivationViewSet.bulk_deactivate` (views.py line 358-400): 400
when no ids are given, otherwise the loop's success count, error list
and post-state. -/
def bulk_deactivate (s : Store) (now : Int) (email : String)
    (ids : List Nat) (reason : String) :
    Except String (Nat × List String × Store) :=
  if ids.isEmpty then
    .error "No activation IDs provided"
  else
    .ok (bulkLoop now email reason ids s)

/-- Where a concurrently running `activate` request stands.  The code
path of views.py line 484-554 touches the store twice: once for the
lookups and the seat check (lines 495-534, plain reads), and once for
the insert (lines 537-542, the only part inside `transaction.atomic()`),
so a request is modelled as two store-visiting steps. -/
inductive Phase where
  /-- request received, nothing executed yet. -/
  | ready
  /-- passed the seat check at line 530 against the store as it then
  was; remembers the located license id. -/
  | passedCheck (licId : Nat)
  /-- insert committed; carries the new activation id. -/
  | succeeded (activation_id : Nat)
  /-- returned 200 with an existing activation id (line 522-527). -/
  | doneExisting (activation_id : Nat)
  /-- returned 400 `'No available seats for this license'`. -/
  | failedSeat
  /-- any other early return (bad key, no license, integrity error). -/
  | failedOther
deriving DecidableEq, Repr

/-- One in-flight `activate` request. -/
structure ConcClient where
  instance_identifier : String
  phase : Phase
deriving DecidableEq, Repr

/-- Shared store plus the in-flight requests. -/
structure ConcState where
  store : Store
  clients : List ConcClient
deriving DecidableEq, Repr

/-- Run the next store-visiting step of client `i` (all requests share
`license_key`, `product_slug` and `instance_type`; each brings its own
instance identifier).  A `ready` client executes views.py lines 495-534
against the current store; a `passedCheck` client executes the insert of
lines 537-542. -/
def concStep (now : Int) (license_key product_slug ty : String)
    (cs : ConcState) (i : Nat) : ConcState :=
  match cs.clients[i]? with
  | none => cs
  | some c =>
    match c.phase with
    | .ready =>
      let ph : Phase :=
        match Store.findKey cs.store license_key with
        | none => .failedOther
        | some k =>
          match activateLicenseMatches cs.store now k.id product_slug with
          | [l] =>
            match findActiveActivation cs.store l.id c.instance_identifier with
            | some existing => .doneExisting existing.id
            | none =>
              if l.available_seats cs.store.activations ≤ 0 then .failedSeat
              else .passedCheck l.id
          | _ => .failedOther
      { cs with clients := cs.clients.set i { c with phase := ph } }
    | .passedCheck licId =>
      match cs.store.createActivation licId c.instance_identifier ty now with
      | .error _ =>
        { cs with clients := cs.clients.set i { c with phase := .failedOther } }
      | .ok (a, s') =>
        { store := s'
          clients := cs.clients.set i { c with phase := .succeeded a.id } }
    | _ => cs

/-- Execute an interleaving: at each schedule entry the named client
runs its next step. -/
def runSchedule (now : Int) (license_key product_slug ty : String)
    (schedule : List Nat) (cs : ConcState) : ConcState :=
  schedule.foldl (concStep now license_key product_slug ty) cs

/-- Predicate `can_activate` as the specification words it (§4.2): status in
{valid, renewed}, unexpired, and a seat free.  Stated from the spec, to
be compared with the filters the code actually uses. -/
def specCanActivate (now : Int) (l : License) (activations : List Activation) :
    Prop :=
  (l.status = .valid ∨ l.status = .renewed) ∧ l.expiration_date > now ∧
    l.available_seats activations > 0

/-! ### Concrete fixtures used as inputs to the theorems below -/

/-- A demo license row with the given status: 5 seats, expires at time
100, never renewed/suspended/cancelled. -/
def demoLicense (st : Status) : License :=
  { id := 1
    license_key := 0
    product_slug := "p"
    status := st
    seats := 5
    expiration_date := 100
    original_expiration_date := none
    renewal_count := 0
    suspension_reason := ""
    cancellation_reason := ""
    cancelled_at := none
    suspended_at := none }

/-- A demo active license key owning the demo licenses. -/
def demoKey : LicenseKeyRec :=
  { id := 0, key := "KEY", customer_email := "u@example.com", is_active := true }

/-- An activation row on the demo license. -/
def demoActivation (aid : Nat) (inst : String) (active : Bool) : Activation :=
  { id := aid
    license := 1
    instance_identifier := inst
    instance_type := "website"
    is_active := active
    activated_at := 0
    deactivated_at := none
    deactivation_reason := "" }

/-! ### Claim theorems -/

/-- Claim C1: for every license, `available_seats` equals
`max(0, seats − count of active activations of the license)`, computed
from the activation table passed in (the current storage state — the
Python property runs a fresh count query on every call and stores
nothing), and it always lies in the range `[0, seats]`. -/
theorem available_seats_formula_and_range (l : License)
    (acts : List Activation) :
    l.available_seats acts =
      max 0 ((l.seats : Int) - (usedSeats l acts : Int)) ∧
    0 ≤ l.available_seats acts ∧ l.available_seats acts ≤ l.seats := by
  refine ⟨rfl, ?_, ?_⟩ <;>
  · unfold License.available_seats
    omega

/-- Claim C2 (evaluating the code at the failing interleaving): against a
license with 1 seat, two concurrent `activate` requests for distinct
instances, interleaved as check / check / insert / insert — the split
the code admits because only the insert of views.py line 537-542 is
inside `transaction.atomic()` — BOTH succeed, leaving 2 active
activations on a 1-seat license, contradicting the claim that at most
`seats` succeed and the rest fail with `SeatExhausted`. -/
theorem concurrent_activate_oversubscribes :
    ((runSchedule 0 "KEY" "p" "website" [0, 1, 0, 1]
        { store :=
            { licenseKeys := [demoKey]
              licenses := [{ demoLicense .valid with seats := 1 }]
              activations := []
              nextActivationId := 1 }
          clients :=
            [{ instance_identifier := "site-a", phase := .ready },
             { instance_identifier := "site-b", phase := .ready }] }).clients.map
        (fun c => c.phase)) = [.succeeded 1, .succeeded 2] ∧
    usedSeats { demoLicense .valid with seats := 1 }
      (runSchedule 0 "KEY" "p" "website" [0, 1, 0, 1]
        { store :=
            { licenseKeys := [demoKey]
              licenses := [{ demoLicense .valid with seats := 1 }]
              activations := []
              nextActivationId := 1 }
          clients :=
            [{ instance_identifier := "site-a", phase := .ready },
             { instance_identifier := "site-b", phase := .ready }] }).store.activations
      = 2 := by
  decide

/-- Claim C3 (evaluating the code at the failing input): a first `renew` on a
valid license succeeds, stores the original expiration and sets the
counter to 1 — but because it sets the status to `renewed`, which
`License.renew` does not accept (`models.py` line 259 allows only
`valid` and the stored `expired`), a second `renew` is rejected instead
of bringing the counter to 2 as the claim states. -/
theorem renew_second_renewal_rejected :
    (License.renew (demoLicense .valid) 130).map
        (fun l => (l.status, l.renewal_count, l.original_expiration_date)) =
      .ok (Status.renewed, 1, some 100) ∧
    Except.bind (License.renew (demoLicense .valid) 130)
        (fun l => License.renew l 160) =
      .error "Cannot renew license with status: renewed" := by
  constructor <;> rfl

/-- Claim C4, counterexample: `License.cancel` on a license whose stored
status is `expired` fails, although the claim says `cancel` succeeds
from every status except `cancelled`. -/
theorem cancel_from_expired_status_fails :
    License.cancel 50 (demoLicense .expired) "r" =
      .error "Cannot cancel license with status: expired" := by
  rfl

/-- Claim C4, amended: `cancel(reason)` succeeds from every status except
`cancelled` AND the stored `expired`, setting the status to `cancelled`
and recording reason and timestamp; from `cancelled` or `expired` it
fails naming the current status and changes no state. -/
theorem cancel_characterization (l : License) (now : Int) (reason : String) :
    (l.status ≠ .cancelled ∧ l.status ≠ .expired →
      License.cancel now l reason =
        .ok { l with
          status := .cancelled
          cancellation_reason := reason
          cancelled_at := some now }) ∧
    (l.status = .cancelled ∨ l.status = .expired →
      License.cancel now l reason =
        .error ("Cannot cancel license with status: " ++ l.status.str)) := by
  unfold License.cancel
  constructor
  · intro h
    rw [if_neg (by tauto)]
  · intro h
    rw [if_pos h]

/-- Witness for `cancel_characterization`: cancelling a pending license
at time 7. -/
theorem cancel_characterization_witness :
    License.cancel 7 (demoLicense .pending) "why" =
      .ok { demoLicense .pending with
        status := .cancelled
        cancellation_reason := "why"
        cancelled_at := some (7 : Int) } :=
  (cancel_characterization (demoLicense .pending) 7 "why").1 (by decide)

/-- Claim C9, counterexample: the exposed `change_status` endpoint — not one
of the four lifecycle operations — rewrites the status of a `cancelled`
(terminal) license back to `valid` with no legality check. -/
theorem change_status_mutates_cancelled_license :
    change_status (demoLicense .cancelled) "valid" =
      .ok { demoLicense .cancelled with status := .valid } := by
  rfl

/-- Claim C9, amended: besides the four lifecycle operations, the exposed
legacy `change_status` operation also mutates a license's status: for
any current state it overwrites the status with any of the six declared
status values, with no state-machine legality check. -/
theorem change_status_sets_any_declared_status (l : License) (str : String)
    (st : Status) (h : statusOfString str = some st) :
    change_status l str = .ok { l with status := st } := by
  unfold change_status
  rw [h]

/-- Witness for `change_status_sets_any_declared_status`: a suspended
license set straight to `pending`. -/
theorem change_status_sets_any_declared_status_witness :
    change_status (demoLicense .suspended) "pending" =
      .ok { demoLicense .suspended with status := .pending } :=
  change_status_sets_any_declared_status (demoLicense .suspended) "pending"
    .pending rfl

/-- A store holding the demo key, the demo valid license, and one
active activation of it on instance `"site"`. -/
def demoStoreActive : Store :=
  { licenseKeys := [demoKey]
    licenses := [demoLicense .valid]
    activations := [demoActivation 1 "site" true]
    nextActivationId := 2 }

/-- Claim C5: when the license lookup succeeds and an active activation
already exists for (license, instance identifier), `activate` returns
success carrying that activation's id and leaves the store untouched —
no new record, no seat consumed — and therefore a repeated call gives
the same answer again on the same store, however often it is repeated. -/
theorem activate_idempotent_on_active_pair
    (s : Store) (now : Int) (key slug inst ty : String)
    (k : LicenseKeyRec) (l : License) (a : Activation)
    (hk : Store.findKey s key = some k)
    (hl : activateLicenseMatches s now k.id slug = [l])
    (ha : findActiveActivation s l.id inst = some a) :
    activate s now key slug inst ty = (.alreadyActive a.id, s) ∧
    activate (activate s now key slug inst ty).2 now key slug inst ty =
      (.alreadyActive a.id, s) ∧
    a.is_active = true ∧ a.license = l.id ∧ a.instance_identifier = inst := by
  have h1 : activate s now key slug inst ty = (.alreadyActive a.id, s) := by
    simp only [activate, hk, hl, ha]
  have hp := List.find?_some ha
  simp only [Bool.and_eq_true, beq_iff_eq] at hp
  refine ⟨h1, ?_, hp.2, hp.1.1, hp.1.2⟩
  rw [h1]
  exact h1

/-- Witness for `activate_idempotent_on_active_pair`: re-activating the
already active pair in `demoStoreActive` returns the existing id 1 and
the unchanged store. -/
theorem activate_idempotent_witness :
    activate demoStoreActive 0 "KEY" "p" "site" "website" =
      (.alreadyActive 1, demoStoreActive) :=
  (activate_idempotent_on_active_pair demoStoreActive 0 "KEY" "p" "site"
    "website" demoKey (demoLicense .valid) (demoActivation 1 "site" true)
    rfl rfl rfl).1

/-- Claim C6 (evaluating the code at the failing input): deactivate the
activation of (license, "site"), then activate the same pair again on
the still-entitled license with free seats.  Because the table's
`unique_together` constraint covers the pair over ALL rows — not only
currently active ones — the insert raises `IntegrityError` instead of
creating a fresh record; afterwards the store still holds only the one
deactivated row with its reason and timestamp. -/
theorem reactivate_after_deactivate_integrity_error :
    (deactivateEndpoint demoStoreActive 10 1 (some "old")).map
        (fun s' => (activate s' 20 "KEY" "p" "site" "website").1) =
      .ok .integrityError ∧
    (deactivateEndpoint demoStoreActive 10 1 (some "old")).map
        (fun s' => (activate s' 20 "KEY" "p" "site" "website").2.activations.map
          (fun a => (a.id, a.is_active, a.deactivation_reason, a.deactivated_at))) =
      .ok [(1, false, "old", some 10)] := by
  constructor <;> rfl

/-- A store whose only license for the demo key has status `renewed`
and is unexpired. -/
def demoStoreRenewed : Store :=
  { licenseKeys := [demoKey]
    licenses := [demoLicense .renewed]
    activations := []
    nextActivationId := 1 }

/-- Claim C7, counterexample: an unexpired license with status `renewed` —
entitled under the spec's `can_activate` predicate (statuses valid OR
renewed) with all 5 seats free — is refused by `activate` with the
`LicenseNotEntitled` outcome and omitted by the `check_status` filter,
because both querysets in views.py filter on `status='valid'` alone. -/
theorem renewed_license_not_entitled :
    activate demoStoreRenewed 0 "KEY" "p" "site" "website" =
      (.licenseNotFound, demoStoreRenewed) ∧
    checkStatusLicenses demoStoreRenewed 0 0 none = [] ∧
    specCanActivate 0 (demoLicense .renewed) demoStoreRenewed.activations := by
  refine ⟨rfl, rfl, ?_⟩
  refine ⟨Or.inr rfl, by decide, by decide⟩

/-- Claim C7, amended: the code treats a license as entitled iff its stored
status is exactly `valid` (a `renewed` status disqualifies it) and its
expiration is in the future: `activate`'s license lookup and both
`check_status` filters select precisely the licenses of the key passing
this predicate, `activate` answers `LicenseNotEntitled` (404, no valid
license) when no license passes it, and `SeatExhausted` when a license
passes it but has no free seat. -/
theorem entitlement_filter_characterization
    (s : Store) (now : Int) (keyId : Nat) (slug : String) (l : License) :
    (l ∈ activateLicenseMatches s now keyId slug ↔
      l ∈ s.licenses ∧ l.license_key = keyId ∧ l.product_slug = slug ∧
        l.status = .valid ∧ now < l.expiration_date) ∧
    (l ∈ checkStatusLicenses s now keyId (some slug) ↔
      l ∈ s.licenses ∧ l.license_key = keyId ∧ l.status = .valid ∧
        now < l.expiration_date ∧ l.product_slug = slug) ∧
    (l ∈ checkStatusLicenses s now keyId none ↔
      l ∈ s.licenses ∧ l.license_key = keyId ∧ l.status = .valid ∧
        now < l.expiration_date) ∧
    (∀ key k inst ty, Store.findKey s key = some k →
      activateLicenseMatches s now k.id slug = [] →
      activate s now key slug inst ty = (.licenseNotFound, s)) ∧
    (∀ key k inst ty, Store.findKey s key = some k →
      activateLicenseMatches s now k.id slug = [l] →
      findActiveActivation s l.id inst = none →
      l.available_seats s.activations ≤ 0 →
      activate s now key slug inst ty = (.seatExhausted, s)) := by
  refine ⟨?_, ?_, ?_, ?_, ?_⟩
  · simp [activateLicenseMatches, List.mem_filter, and_assoc]
  · simp [checkStatusLicenses, List.mem_filter, and_assoc]
  · simp [checkStatusLicenses, List.mem_filter, and_assoc]
  · intro key k inst ty hk hl
    simp only [activate, hk, hl]
  · intro key k inst ty hk hl hact hseat
    simp only [activate, hk, hl, hact]
    rw [if_pos hseat]

/-- A store whose demo license has a single seat already taken by an
activation on another instance. -/
def demoStoreFull : Store :=
  { licenseKeys := [demoKey]
    licenses := [{ demoLicense .valid with seats := 1 }]
    activations := [demoActivation 1 "other" true]
    nextActivationId := 2 }

/-- Witness for `entitlement_filter_characterization`: activating a new
instance on the fully occupied one-seat license yields the
`SeatExhausted` outcome. -/
theorem entitlement_filter_witness :
    activate demoStoreFull 0 "KEY" "p" "site" "website" =
      (.seatExhausted, demoStoreFull) :=
  ((entitlement_filter_characterization demoStoreFull 0 0 "p"
      { demoLicense .valid with seats := 1 }).2.2.2.2)
    "KEY" demoKey "site" "website" rfl rfl rfl (by decide)

/-- A store with three activations of the demo license owned by the
demo key's customer: ids 1 and 3 active, id 2 already inactive. -/
def demoStore8 : Store :=
  { licenseKeys := [demoKey]
    licenses := [demoLicense .valid]
    activations :=
      [demoActivation 1 "a" true, demoActivation 2 "b" false,
       demoActivation 3 "c" true]
    nextActivationId := 4 }

/-- Claim C8: `bulk_deactivate` processes ids independently — the run over a
concatenation is the run over the first part followed by the run over
the second from the intermediate store, with counts added and error
lists concatenated, so no per-item failure aborts the remainder — and
on the batch [1, 2, 3] with id 2 already inactive it reports 2
successes plus exactly the one error naming id 2, after which ids 1
and 3 are inactive. -/
theorem bulk_deactivate_partial_success :
    (∀ (now : Int) (email reason : String) (ids₁ ids₂ : List Nat) (s : Store),
      bulkLoop now email reason (ids₁ ++ ids₂) s =
        ((bulkLoop now email reason ids₁ s).1 +
            (bulkLoop now email reason ids₂
              (bulkLoop now email reason ids₁ s).2.2).1,
          (bulkLoop now email reason ids₁ s).2.1 ++
            (bulkLoop now email reason ids₂
              (bulkLoop now email reason ids₁ s).2.2).2.1,
          (bulkLoop now email reason ids₂
            (bulkLoop now email reason ids₁ s).2.2).2.2)) ∧
    (bulk_deactivate demoStore8 5 "u@example.com" [1, 2, 3] "r").map
        (fun r => (r.1, r.2.1,
          r.2.2.activations.map (fun a => (a.id, a.is_active)))) =
      .ok (2, ["Activation 2 is already deactivated"],
        [(1, false), (2, false), (3, false)]) := by
  constructor
  · intro now email reason ids₁ ids₂ s
    induction ids₁ generalizing s with
    | nil => simp [bulkLoop]
    | cons id rest ih =>
      cases hfind : s.findOwnedActivation id email with
      | none => simp [bulkLoop, hfind, ih, List.append_assoc]
      | some a =>
        by_cases hia : a.is_active <;>
          simp [bulkLoop, hfind, hia, ih, List.append_assoc, Nat.add_assoc]
  · rfl

/-- Claim C10: whenever `activate` creates a new activation, the
`available_seats` value it reports is `max(0, seats − active count
including the just-created activation) − 1` — one below the license's
actual availability at that moment — and in particular equals `−1`
when the new activation took the last seat. -/
theorem activate_reported_available_seats
    (s : Store) (now : Int) (key slug inst ty : String)
    (k : LicenseKeyRec) (l : License) (aid : Nat) (av : Int) (s₂ : Store)
    (hk : Store.findKey s key = some k)
    (hl : activateLicenseMatches s now k.id slug = [l])
    (hres : activate s now key slug inst ty = (.activated aid av, s₂)) :
    av = max 0 ((l.seats : Int) - (usedSeats l s₂.activations : Int)) - 1 ∧
    ((l.seats : Int) ≤ (usedSeats l s₂.activations : Int) → av = -1) := by
  simp only [activate, hk, hl] at hres
  cases hact : findActiveActivation s l.id inst with
  | some a =>
    simp only [hact] at hres
    simp at hres
  | none =>
    simp only [hact] at hres
    by_cases hseat : l.available_seats s.activations ≤ 0
    · rw [if_pos hseat] at hres
      simp at hres
    · rw [if_neg hseat] at hres
      cases hcr : s.createActivation l.id inst ty now with
      | error e =>
        simp only [hcr] at hres
        simp at hres
      | ok p =>
        obtain ⟨a, s'⟩ := p
        simp only [hcr] at hres
        rw [Prod.mk.injEq] at hres
        obtain ⟨hfst, hsnd⟩ := hres
        injection hfst with hid hav
        subst hsnd
        constructor
        · rw [← hav]
          rfl
        · intro hge
          rw [← hav]
          unfold License.available_seats
          omega

/-- A store with the demo key and a one-seat valid license with no
activations yet. -/
def demoStoreOneSeat : Store :=
  { licenseKeys := [demoKey]
    licenses := [{ demoLicense .valid with seats := 1 }]
    activations := []
    nextActivationId := 1 }

/-- Witness for `activate_reported_available_seats`: creating the
activation that takes the only seat makes the endpoint report
`available_seats = -1`. -/
theorem activate_reported_available_seats_witness :
    (-1 : Int) =
      max 0 ((({ demoLicense .valid with seats := 1 } : License).seats : Int) -
        (usedSeats { demoLicense .valid with seats := 1 }
          (activate demoStoreOneSeat 0 "KEY" "p" "site"
            "website").2.activations : Int)) - 1 := by
  have hres : activate demoStoreOneSeat 0 "KEY" "p" "site" "website" =
      (.activated 1 (-1),
        (activate demoStoreOneSeat 0 "KEY" "p" "site" "website").2) := by
    decide
  exact (activate_reported_available_seats demoStoreOneSeat 0 "KEY" "p" "site"
    "website" demoKey { demoLicense .valid with seats := 1 } 1 (-1)
    (activate demoStoreOneSeat 0 "KEY" "p" "site" "website").2
    rfl rfl hres).1

end LicenseService
